import Mathlib

/-!
Verification development for the Sage multi-LLM code-review engine.

The definitions below are a shallow embedding of the JavaScript source:

* `scripts/review.js` — the review orchestrator (`main`, `parseFindings`,
  `filterBySeverity`, `countBySeverity`, `getModelPricing`, `calculateCost`,
  `filterFiles`, `setOutputs`);
* `scripts/providers/anthropic.js`, `scripts/providers/openai.js`,
  `scripts/providers/google.js` — the three provider adapters (pricing
  tables, `getModelPricing`, `calculateCost`, and the retry loop shared by
  the three `review` implementations);
* `scripts/providers/factory.js` — `ProviderFactory.createProvider`.

Modelling conventions: JavaScript numbers are modelled as exact rationals
(`ℚ`); absent (`undefined`) values as `Option`; thrown exceptions as
`Except.error` carrying the error message; `JSON.parse` as a total fueled
recursive-descent function over the character list of the input string.
-/

/-! ### Character and string helpers (kernel-computable replacements for
JS string primitives; all structural recursion, no well-founded recursion,
so concrete evaluations reduce by `rfl`/`decide`). -/

/-- The `?` left-brace character, written by code so that no brace literal
appears in the file. -/
def lbrace : Char := Char.ofNat 123

/-- The right-brace character. -/
def rbrace : Char := Char.ofNat 125

/-- Does `l` start with `pat`? (model of a JS anchored-at-start regex test). -/
def listStartsWith : List Char → List Char → Bool
  | _, [] => true
  | [], _ :: _ => false
  | a :: as, b :: bs => a = b && listStartsWith as bs

/-- Does `pat` occur as a contiguous sublist of `l`?  Models JS
`String.prototype.includes` / an unanchored regex literal. -/
def subOccurs (l pat : List Char) : Bool :=
  match l with
  | [] => pat.isEmpty
  | c :: rest => listStartsWith (c :: rest) pat || subOccurs rest pat

/-- `s.includes(pat)` on strings. -/
def strContains (s pat : String) : Bool := subOccurs s.data pat.data

/-- `s.startsWith(pat)` (model of a `^`-anchored regex). -/
def strStarts (s pat : String) : Bool := listStartsWith s.data pat.data

/-- `s.endsWith(pat)` (model of a `$`-anchored regex). -/
def strEnds (s pat : String) : Bool := listStartsWith s.data.reverse pat.data.reverse

/-- ASCII lower-casing of one character (all pattern strings here are ASCII). -/
def charLower (c : Char) : Char :=
  if 'A' ≤ c ∧ c ≤ 'Z' then Char.ofNat (c.toNat + 32) else c

/-- `s.toLowerCase()` for the ASCII strings used by the program. -/
def strLower (s : String) : String := String.mk (s.data.map charLower)

/-- `modelName.split(':')[0]`: the prefix of `s` before the first `:`
(the whole string when there is none). -/
def headBeforeColon (s : String) : String :=
  String.mk (s.data.takeWhile (fun c => ¬ c = ':'))

/-! ### JSON values and a model of `JSON.parse`

`parseFindings` in `review.js` feeds a substring of the model response to
`JSON.parse`.  We model JSON numbers exactly (mantissa and decimal exponent;
JS uses binary floats, but the claims only inspect numbers for zero/non-zero,
on which the two representations agree for every literal) and `JSON.parse`
as a strict RFC-8259 recursive-descent function that fails (returns `none`,
the image of the thrown `SyntaxError`) on trailing garbage, unterminated
strings, or malformed numbers, as `JSON.parse` does. -/

/-- A JSON number, exactly, as `mantissa * 10 ^ exponent` (JS parses into a
binary float; the claims only inspect numbers for zero/non-zero, which the
exact form decides identically for every literal a model can emit). -/
structure JNum where
  mantissa : Int
  exponent : Int
deriving DecidableEq

/-- A parsed JSON value. Duplicate object keys are kept in order; lookups
take the last occurrence, as `JSON.parse` does. -/
inductive JVal where
  | null : JVal
  | bool : Bool → JVal
  | num : JNum → JVal
  | str : String → JVal
  | arr : List JVal → JVal
  | obj : List (String × JVal) → JVal

/-- JSON insignificant whitespace. -/
def isJsonWs (c : Char) : Bool := c = ' ' || c = '\t' || c = '\n' || c = '\r'

/-- Drop leading JSON whitespace. -/
def skipJsonWs : List Char → List Char
  | [] => []
  | c :: rest => if isJsonWs c then skipJsonWs rest else c :: rest

/-- ASCII decimal digit test. -/
def isDigitChar (c : Char) : Bool := '0' ≤ c && c ≤ '9'

/-- Longest digit prefix and the remainder. -/
def takeDigitChars : List Char → List Char × List Char
  | [] => ([], [])
  | c :: rest =>
    if isDigitChar c then
      let (ds, r) := takeDigitChars rest
      (c :: ds, r)
    else ([], c :: rest)

/-- Numeric value of a digit list. -/
def digitsVal (ds : List Char) : Nat :=
  ds.foldl (fun acc c => acc * 10 + (c.toNat - '0'.toNat)) 0

/-- Value of one hex digit, if it is one. -/
def hexDigitVal (c : Char) : Option Nat :=
  if '0' ≤ c ∧ c ≤ '9' then some (c.toNat - '0'.toNat)
  else if 'a' ≤ c ∧ c ≤ 'f' then some (c.toNat - 'a'.toNat + 10)
  else if 'A' ≤ c ∧ c ≤ 'F' then some (c.toNat - 'A'.toNat + 10)
  else none

/-- Single-character JSON escapes. -/
def jsonEscape (c : Char) : Option Char :=
  if c = '"' then some '"'
  else if c = '\\' then some '\\'
  else if c = '/' then some '/'
  else if c = 'b' then some (Char.ofNat 8)
  else if c = 'f' then some (Char.ofNat 12)
  else if c = 'n' then some '\n'
  else if c = 'r' then some '\r'
  else if c = 't' then some '\t'
  else none

/-- Body of a JSON string after the opening quote: returns the decoded
characters and the rest of the input after the closing quote.  Fuel is
spent one unit per consumed character, so `l.length + 1` always suffices.
Unpaired `\u` surrogate halves decode to `Char.ofNat`'s default; no claim
touches them. -/
def jsonStrBody : Nat → List Char → Option (List Char × List Char)
  | 0, _ => none
  | _ + 1, [] => none
  | fuel + 1, c :: rest =>
    if c = '"' then some ([], rest)
    else if c = '\\' then
      match rest with
      | [] => none
      | e :: rest2 =>
        if e = 'u' then
          match rest2 with
          | h1 :: h2 :: h3 :: h4 :: rest3 =>
            match hexDigitVal h1, hexDigitVal h2, hexDigitVal h3, hexDigitVal h4 with
            | some a, some b, some c3, some d =>
              match jsonStrBody fuel rest3 with
              | some (cs, r) => some (Char.ofNat (((a * 16 + b) * 16 + c3) * 16 + d) :: cs, r)
              | none => none
            | _, _, _, _ => none
          | _ => none
        else
          match jsonEscape e with
          | some ch =>
            match jsonStrBody fuel rest2 with
            | some (cs, r) => some (ch :: cs, r)
            | none => none
          | none => none
    else if c.toNat < 32 then none  -- raw control characters are rejected
    else
      match jsonStrBody fuel rest with
      | some (cs, r) => some (c :: cs, r)
      | none => none

/-- A JSON number starting at the head of `l` (strict grammar:
`-? (0 | [1-9][0-9]*) (. [0-9]+)? ([eE][+-]?[0-9]+)?`). -/
def jsonNumber (l : List Char) : Option (JNum × List Char) :=
  let signed : Bool × List Char :=
    match l with
    | '-' :: r => (true, r)
    | _ => (false, l)
  match signed.2 with
  | [] => none
  | c :: rest =>
    let intPart : Option (Nat × List Char) :=
      if c = '0' then some (0, rest)
      else if isDigitChar c then
        let (ds, r) := takeDigitChars rest
        some (digitsVal (c :: ds), r)
      else none
    match intPart with
    | none => none
    | some (ip, r1) =>
      let fracPart : Option (Nat × Nat × List Char) :=
        match r1 with
        | '.' :: r =>
          match takeDigitChars r with
          | ([], _) => none
          | (ds, r2) => some (digitsVal ds, ds.length, r2)
        | _ => some (0, 0, r1)
      match fracPart with
      | none => none
      | some (fv, fl, r2) =>
        let expPart : Option (Int × List Char) :=
          match r2 with
          | c2 :: r =>
            if c2 = 'e' ∨ c2 = 'E' then
              let se : Int × List Char :=
                match r with
                | '+' :: r3 => (1, r3)
                | '-' :: r3 => (-1, r3)
                | _ => (1, r)
              match takeDigitChars se.2 with
              | ([], _) => none
              | (ds, r4) => some (se.1 * (digitsVal ds : Int), r4)
            else some (0, c2 :: r)
          | [] => some (0, [])
        match expPart with
        | none => none
        | some (ex, r3) =>
          let mag : Int := ((ip * 10 ^ fl + fv : Nat) : Int)
          some (⟨if signed.1 then -mag else mag, ex - (fl : Int)⟩, r3)

/-- Parsing frames: a plain value, or the continuation inside an array or an
object that has already consumed its opening bracket and at least one
element is expected. -/
inductive PFrame where
  | val : PFrame
  | arrCont : List JVal → PFrame
  | objCont : List (String × JVal) → PFrame

/-- Fueled JSON parser.  Every recursive call spends one unit of fuel and the
parse of a document of `n` characters never nests calls more than `2 n + 8`
deep, so `jsonParseChars` below always passes enough. -/
def parseJsonF : Nat → PFrame → List Char → Option (JVal × List Char)
  | 0, _, _ => none
  | fuel + 1, PFrame.val, l =>
    match skipJsonWs l with
    | [] => none
    | c :: rest =>
      if c = 'n' then
        match rest with
        | 'u' :: 'l' :: 'l' :: r => some (JVal.null, r)
        | _ => none
      else if c = 't' then
        match rest with
        | 'r' :: 'u' :: 'e' :: r => some (JVal.bool true, r)
        | _ => none
      else if c = 'f' then
        match rest with
        | 'a' :: 'l' :: 's' :: 'e' :: r => some (JVal.bool false, r)
        | _ => none
      else if c = '"' then
        match jsonStrBody (rest.length + 1) rest with
        | some (cs, r) => some (JVal.str (String.mk cs), r)
        | none => none
      else if c = '[' then
        match skipJsonWs rest with
        | ']' :: r => some (JVal.arr [], r)
        | l2 => parseJsonF fuel (PFrame.arrCont []) l2
      else if c = lbrace then
        match skipJsonWs rest with
        | [] => none
        | x :: r =>
          if x = rbrace then some (JVal.obj [], r)
          else parseJsonF fuel (PFrame.objCont []) (x :: r)
      else if c = '-' ∨ isDigitChar c then
        match jsonNumber (c :: rest) with
        | some (q, r) => some (JVal.num q, r)
        | none => none
      else none
  | fuel + 1, PFrame.arrCont acc, l =>
    match parseJsonF fuel PFrame.val l with
    | none => none
    | some (v, r) =>
      match skipJsonWs r with
      | ',' :: r2 => parseJsonF fuel (PFrame.arrCont (acc ++ [v])) r2
      | ']' :: r2 => some (JVal.arr (acc ++ [v]), r2)
      | _ => none
  | fuel + 1, PFrame.objCont acc, l =>
    match skipJsonWs l with
    | [] => none
    | c :: rest =>
      if c = '"' then
        match jsonStrBody (rest.length + 1) rest with
        | none => none
        | some (ks, r1) =>
          match skipJsonWs r1 with
          | ':' :: r2 =>
            match parseJsonF fuel PFrame.val r2 with
            | none => none
            | some (v, r3) =>
              match skipJsonWs r3 with
              | ',' :: r4 => parseJsonF fuel (PFrame.objCont (acc ++ [(String.mk ks, v)])) r4
              | x :: r4 =>
                if x = rbrace then some (JVal.obj (acc ++ [(String.mk ks, v)]), r4)
                else none
              | [] => none
          | _ => none
      else none

/-- `JSON.parse` on a character list: one value, then only whitespace may
remain (`JSON.parse` throws on trailing garbage, modelled as `none`). -/
def jsonParseChars (l : List Char) : Option JVal :=
  match parseJsonF (2 * l.length + 8) PFrame.val l with
  | some (v, r) => if (skipJsonWs r).isEmpty then some v else none
  | none => none

/-- `JSON.parse` on a string. -/
def jsonParse (s : String) : Option JVal := jsonParseChars s.data

/-! ### `parseFindings` (review.js lines 580-620)

`parseFindings` looks for `responseText.match(/\[[\s\S]*\]/)`: the regex
engine starts at the leftmost position where a match is possible (the first
`[` that has some `]` after it) and the greedy `[\s\S]*` runs to the last
`]` of the whole text.  The matched substring goes through `JSON.parse`
(throw, i.e. `none`, is caught and yields `[]`), a non-array result yields
`[]`, and each element of an array result is kept only when the four fields
`severity`, `file`, `line`, `title` are all truthy. -/

/-- Index of the last occurrence of `c` in `l`, if any. -/
def lastIdxOf (c : Char) : List Char → Option Nat
  | [] => none
  | x :: xs =>
    match lastIdxOf c xs with
    | some n => some (n + 1)
    | none => if x = c then some 0 else none

/-- The substring matched by `/\[[\s\S]*\]/`: from the first `[` that is
followed (strictly later) by some `]`, through the last `]` of the text. -/
def extractArraySub : List Char → Option (List Char)
  | [] => none
  | c :: rest =>
    if c = '[' then
      match lastIdxOf ']' rest with
      | some n => some ('[' :: rest.take (n + 1))
      | none => extractArraySub rest
    else extractArraySub rest

/-- Property lookup on a parsed JSON value: `undefined` (`none`) for
non-objects and missing keys; the last duplicate key wins, as in the
objects `JSON.parse` builds. -/
def getField (v : JVal) (key : String) : Option JVal :=
  match v with
  | JVal.obj fields => (fields.reverse.find? (fun p => p.1 = key)).map (fun p => p.2)
  | _ => none

/-- JS truthiness of a property access result: `undefined`, `null`,
`false`, `0` and `""` are falsy; everything else (including any non-empty
string, non-zero number, array or object) is truthy. -/
def truthy (v : Option JVal) : Bool :=
  match v with
  | none => false
  | some JVal.null => false
  | some (JVal.bool b) => b
  | some (JVal.num q) => ¬ q.mantissa = 0
  | some (JVal.str s) => ¬ s = ""
  | some (JVal.arr _) => true
  | some (JVal.obj _) => true

/-- The per-element validation filter of `parseFindings`
(`!f.severity || !f.file || !f.line || !f.title` drops the element). -/
def validFinding (f : JVal) : Bool :=
  truthy (getField f "severity") && truthy (getField f "file")
    && truthy (getField f "line") && truthy (getField f "title")

/-- `parseFindings(responseText)` (review.js lines 580-620). -/
def parseFindings (responseText : String) : List JVal :=
  match extractArraySub responseText.data with
  | none => []
  | some sub =>
    match jsonParseChars sub with
    | some (JVal.arr findings) => findings.filter validFinding
    | _ => []

/-! ### Severity (review.js lines 49-54, 627-646) -/

/-- `SEVERITY_LEVELS[s]`: `none` is JS `undefined` for any other key. -/
def sevLevel (s : String) : Option Nat :=
  if s = "CRITICAL" then some 4
  else if s = "HIGH" then some 3
  else if s = "MEDIUM" then some 2
  else if s = "LOW" then some 1
  else none

/-- `SEVERITY_LEVELS[f.severity] || 0`: property access on a non-string
severity also comes back `undefined` (the table only has the four word
keys), hence rank `0`. -/
def findingRank (f : JVal) : Nat :=
  match getField f "severity" with
  | some (JVal.str s) => (sevLevel s).getD 0
  | _ => 0

/-- `filterBySeverity(findings)` (review.js lines 627-634), with the
configured threshold string as an explicit parameter.  When the threshold
string is not a key of `SEVERITY_LEVELS`, the JS comparison
`severity >= undefined` is `false` for every element, so nothing is kept.
-/
def filterBySeverity (thresholdName : String) (findings : List JVal) : List JVal :=
  match sevLevel thresholdName with
  | some threshold => findings.filter (fun f => threshold ≤ findingRank f)
  | none => findings.filter (fun _ => false)

/-- `f.severity === s` for a string literal `s` (strict equality: a
non-string severity value never matches). -/
def severityIs (f : JVal) (s : String) : Bool :=
  match getField f "severity" with
  | some (JVal.str v) => v = s
  | _ => false

/-- The result shape of `countBySeverity`. -/
structure SevCounts where
  CRITICAL : Nat
  HIGH : Nat
  MEDIUM : Nat
  LOW : Nat

/-- `countBySeverity(findings)` (review.js lines 639-646). -/
def countBySeverity (findings : List JVal) : SevCounts :=
  ⟨(findings.filter (fun f => severityIs f "CRITICAL")).length,
   (findings.filter (fun f => severityIs f "HIGH")).length,
   (findings.filter (fun f => severityIs f "MEDIUM")).length,
   (findings.filter (fun f => severityIs f "LOW")).length⟩

/-! ### Pricing tables and cost calculation

Each adapter carries its own static pricing table (USD per million tokens),
and `review.js` duplicates all three tables inside its own
`getModelPricing`.  The duplication below mirrors the source. -/

/-- An Anthropic pricing entry: all four rates are always present. -/
structure CachePricing where
  input : ℚ
  output : ℚ
  cache_write : ℚ
  cache_read : ℚ

/-- An OpenAI or Google pricing entry: input/output rates only. -/
structure SimplePricing where
  input : ℚ
  output : ℚ

/-- An entry of the combined table in `review.js`: cache rates are present
only for the Anthropic models. -/
structure PricingEntry where
  input : ℚ
  output : ℚ
  cache_write : Option ℚ
  cache_read : Option ℚ

/-- First-match lookup in an association-list pricing table (JS object
literals here have distinct keys, so first match equals JS key access). -/
def tableLookup {α : Type} (table : List (String × α)) (key : String) : Option α :=
  (table.find? (fun e => e.1 = key)).map (fun e => e.2)

/-- The `PRICING_TABLE` of `anthropic.js` (lines 87-120). -/
def anthropicPricingTable : List (String × CachePricing) :=
  [("claude-sonnet-4-5-20250929", ⟨3, 15, 6, 0.3⟩),
   ("claude-opus-4-5-20251101", ⟨15, 75, 30, 1.5⟩),
   ("claude-haiku-4-5-20250101", ⟨0.8, 4, 1.6, 0.08⟩),
   ("claude-3-5-sonnet-20241022", ⟨3, 15, 6, 0.3⟩),
   ("claude-3-5-haiku-20241022", ⟨0.8, 4, 1.6, 0.08⟩)]

/-- `AnthropicProvider.getModelPricing` (anthropic.js lines 85-144): exact
match after stripping a `:`-suffix, then substring family inference
(opus, haiku, sonnet in that order), then the Sonnet 4.5 entry as the
total-miss fallback. -/
def AnthropicProvider.getModelPricing (modelName : String) : CachePricing :=
  let normalizedName := headBeforeColon modelName
  match tableLookup anthropicPricingTable normalizedName with
  | some p => p
  | none =>
    if strContains normalizedName "opus" then ⟨15, 75, 30, 1.5⟩
    else if strContains normalizedName "haiku" then ⟨0.8, 4, 1.6, 0.08⟩
    else if strContains normalizedName "sonnet" then ⟨3, 15, 6, 0.3⟩
    else ⟨3, 15, 6, 0.3⟩

/-- The `PRICING_TABLE` of `openai.js` (lines 72-89). -/
def openaiPricingTable : List (String × SimplePricing) :=
  [("gpt-4-turbo-preview", ⟨10, 30⟩),
   ("gpt-4-turbo", ⟨10, 30⟩),
   ("gpt-4", ⟨30, 60⟩),
   ("gpt-3.5-turbo", ⟨0.5, 1.5⟩)]

/-- `OpenAIProvider.getModelPricing` (openai.js lines 70-110): exact match
(no `:` normalization here), then gpt-4-turbo / gpt-4 / gpt-3.5 substring
inference, then the GPT-4 Turbo entry as the total-miss fallback. -/
def OpenAIProvider.getModelPricing (modelName : String) : SimplePricing :=
  match tableLookup openaiPricingTable modelName with
  | some p => p
  | none =>
    if strContains modelName "gpt-4-turbo" then ⟨10, 30⟩
    else if strContains modelName "gpt-4" then ⟨30, 60⟩
    else if strContains modelName "gpt-3.5" then ⟨0.5, 1.5⟩
    else ⟨10, 30⟩

/-- The `PRICING_TABLE` of `google.js` (lines 157-170). -/
def googlePricingTable : List (String × SimplePricing) :=
  [("gemini-1.5-pro", ⟨3.5, 10.5⟩),
   ("gemini-1.5-flash", ⟨0.35, 1.05⟩),
   ("gemini-pro", ⟨0.5, 1.5⟩)]

/-- `GoogleProvider.getModelPricing` (google.js lines 155-191): exact match
(no `:` normalization), then flash / 1.5-pro / pro substring inference, then
the Gemini 1.5 Pro entry as the total-miss fallback. -/
def GoogleProvider.getModelPricing (modelName : String) : SimplePricing :=
  match tableLookup googlePricingTable modelName with
  | some p => p
  | none =>
    if strContains modelName "flash" then ⟨0.35, 1.05⟩
    else if strContains modelName "1.5-pro" then ⟨3.5, 10.5⟩
    else if strContains modelName "pro" then ⟨0.5, 1.5⟩
    else ⟨3.5, 10.5⟩

/-- The combined table of `review.js` `getModelPricing` (lines 654-779):
all three vendor tables checked in order, then family inference keyed on
claude/opus/sonnet/haiku, gpt, and gemini substrings, then the Claude
Sonnet 4.5 entry as the total-miss fallback. -/
def getModelPricing (modelName : String) : PricingEntry :=
  let anthropicEntries : List (String × PricingEntry) :=
    [("claude-sonnet-4-5-20250929", ⟨3, 15, some 6, some 0.3⟩),
     ("claude-opus-4-5-20251101", ⟨15, 75, some 30, some 1.5⟩),
     ("claude-haiku-4-5-20250101", ⟨0.8, 4, some 1.6, some 0.08⟩),
     ("claude-3-5-sonnet-20241022", ⟨3, 15, some 6, some 0.3⟩),
     ("claude-3-5-haiku-20241022", ⟨0.8, 4, some 1.6, some 0.08⟩)]
  let openaiEntries : List (String × PricingEntry) :=
    [("gpt-4-turbo-preview", ⟨10, 30, none, none⟩),
     ("gpt-4-turbo", ⟨10, 30, none, none⟩),
     ("gpt-4", ⟨30, 60, none, none⟩),
     ("gpt-3.5-turbo", ⟨0.5, 1.5, none, none⟩)]
  let googleEntries : List (String × PricingEntry) :=
    [("gemini-1.5-pro", ⟨3.5, 10.5, none, none⟩),
     ("gemini-1.5-flash", ⟨0.35, 1.05, none, none⟩),
     ("gemini-pro", ⟨0.5, 1.5, none, none⟩)]
  let normalizedName := headBeforeColon modelName
  match tableLookup anthropicEntries normalizedName with
  | some p => p
  | none =>
  match tableLookup openaiEntries normalizedName with
  | some p => p
  | none =>
  match tableLookup googleEntries normalizedName with
  | some p => p
  | none =>
  if strContains normalizedName "claude" || strContains normalizedName "opus"
      || strContains normalizedName "sonnet" || strContains normalizedName "haiku" then
    if strContains normalizedName "opus" then ⟨15, 75, some 30, some 1.5⟩
    else if strContains normalizedName "haiku" then ⟨0.8, 4, some 1.6, some 0.08⟩
    else ⟨3, 15, some 6, some 0.3⟩
  else if strContains normalizedName "gpt" then
    if strContains normalizedName "gpt-4-turbo" then ⟨10, 30, none, none⟩
    else if strContains normalizedName "gpt-4" then ⟨30, 60, none, none⟩
    else ⟨0.5, 1.5, none, none⟩
  else if strContains normalizedName "gemini" then
    if strContains normalizedName "flash" then ⟨0.35, 1.05, none, none⟩
    else ⟨3.5, 10.5, none, none⟩
  else ⟨3, 15, some 6, some 0.3⟩

/-- The common token-usage record (`usage`); `none` is an absent field. -/
structure Usage where
  input_tokens : Option ℚ
  output_tokens : Option ℚ
  cache_creation_input_tokens : Option ℚ
  cache_read_input_tokens : Option ℚ

/-- The body of `calculateCost` in `review.js` (lines 787-809) after the
pricing lookup: `usage.x || 0` is `getD 0`; a cache term is added only when
both the usage counter and the corresponding rate are truthy (present and
non-zero). -/
def calculateCostWith (usage : Usage) (prices : PricingEntry) : ℚ :=
  let cost1 := (usage.input_tokens.getD 0) * (prices.input / 1000000)
  let cost2 := cost1 + (usage.output_tokens.getD 0) * (prices.output / 1000000)
  let cost3 := cost2 +
    (match usage.cache_creation_input_tokens, prices.cache_write with
     | some t, some r => if ¬ t = 0 ∧ ¬ r = 0 then t * (r / 1000000) else 0
     | _, _ => 0)
  cost3 +
    (match usage.cache_read_input_tokens, prices.cache_read with
     | some t, some r => if ¬ t = 0 ∧ ¬ r = 0 then t * (r / 1000000) else 0
     | _, _ => 0)

/-- `calculateCost(usage, modelName)` of `review.js`. -/
def calculateCost (usage : Usage) (modelName : String) : ℚ :=
  calculateCostWith usage (getModelPricing modelName)

/-- `AnthropicProvider.calculateCost` (anthropic.js lines 146-169):
`modelName || this.model` picks the configured model on an absent or empty
argument; cache terms are guarded by the usage counters only (the Anthropic
table always defines cache rates). -/
def AnthropicProvider.calculateCost (selfModel : String) (usage : Usage)
    (modelName : Option String) : ℚ :=
  let model :=
    match modelName with
    | some m => if m = "" then selfModel else m
    | none => selfModel
  let prices := AnthropicProvider.getModelPricing model
  let cost1 := (usage.input_tokens.getD 0) * (prices.input / 1000000)
  let cost2 := cost1 + (usage.output_tokens.getD 0) * (prices.output / 1000000)
  let cost3 := cost2 +
    (match usage.cache_creation_input_tokens with
     | some t => if ¬ t = 0 then t * (prices.cache_write / 1000000) else 0
     | none => 0)
  cost3 +
    (match usage.cache_read_input_tokens with
     | some t => if ¬ t = 0 then t * (prices.cache_read / 1000000) else 0
     | none => 0)

/-! ### The retry loop of the three `review` implementations

`anthropic.js` (lines 50-82), `openai.js` (lines 34-67) and `google.js`
(lines 111-152) contain the same loop, differing only in the provider label
of the final error message:

    for (let attempt = 1; attempt <= retries; attempt++)
      try return await <api call>
      catch (error)
        if (attempt === retries) throw new Error(`<label> API failed after
          ${retries} attempts: ${error.message}`)
        await sleep(Math.pow(2, attempt) * 1000)

When `retries` is `0` the loop body never runs and the function returns
`undefined` (`fellThrough` below) instead of throwing. -/

/-- What one invocation of the loop produced. -/
inductive LoopOutcome (α : Type) where
  | ok : α → LoopOutcome α
  | thrown : String → LoopOutcome α
  | fellThrough : LoopOutcome α
deriving DecidableEq

/-- A run of the retry loop: attempts actually made, the sleeps (in ms)
between consecutive attempts, and the outcome. -/
structure RetryRun (α : Type) where
  attempts : Nat
  delaysMs : List Nat
  outcome : LoopOutcome α
deriving DecidableEq

/-- The final error message thrown after the last failed attempt. -/
def apiFailMsg (label : String) (retries : Nat) (lastErr : String) : String :=
  label ++ " API failed after " ++ toString retries ++ " attempts: " ++ lastErr

/-- One pass over the remaining loop iterations; `attemptOf n` is the
result of the `n`-th underlying API call.  `rem` counts the iterations the
`for` condition still allows (`retries + 1 - attempt`), so the recursion is
structural. -/
def reviewLoop {α : Type} (label : String) (attemptOf : Nat → Except String α)
    (retries : Nat) : Nat → Nat → RetryRun α
  | 0, _ => ⟨0, [], LoopOutcome.fellThrough⟩
  | rem + 1, attempt =>
    match attemptOf attempt with
    | Except.ok a => ⟨1, [], LoopOutcome.ok a⟩
    | Except.error msg =>
      if attempt = retries then
        ⟨1, [], LoopOutcome.thrown (apiFailMsg label retries msg)⟩
      else
        let r := reviewLoop label attemptOf retries rem (attempt + 1)
        ⟨r.attempts + 1, (2 ^ attempt * 1000) :: r.delaysMs, r.outcome⟩

/-- The whole loop, started at `attempt = 1` with `retries` iterations
allowed by the `for` condition. -/
def reviewRetry {α : Type} (label : String) (attemptOf : Nat → Except String α)
    (retries : Nat) : RetryRun α :=
  reviewLoop label attemptOf retries retries 1

/-! ### `ProviderFactory.createProvider` (factory.js lines 19-52) -/

/-- A constructed provider instance (the constructor-argument record of the
class the factory instantiates). -/
inductive Provider where
  | anthropic : (apiKey model : String) → Provider
  | openai : (apiKey model : String) → Provider
  | google : (apiKey model projectId location : String) → Provider
deriving DecidableEq

/-- The options argument of the factory. -/
structure FactoryOptions where
  projectId : Option String
  location : Option String

/-- JS truthiness of an optional string (`undefined` and `""` are falsy). -/
def optTruthy (s : Option String) : Bool :=
  match s with
  | some v => ¬ v = ""
  | none => false

/-- `x || d` for an optional string. -/
def orFalsy (s : Option String) (d : String) : String :=
  match s with
  | some v => if v = "" then d else v
  | none => d

/-- `ProviderFactory.createProvider(providerName, apiKey, model, options)`:
credential check first, then case-insensitive name dispatch with aliases,
Google requiring a truthy `options.projectId`, unknown names rejected with
the supported list. -/
def ProviderFactory.createProvider (providerName : String) (apiKey : Option String)
    (model : Option String) (options : FactoryOptions) : Except String Provider :=
  if ¬ optTruthy apiKey then
    Except.error ("API key is required for provider: " ++ providerName)
  else
    let key := apiKey.getD ""
    let provider := strLower providerName
    if provider = "anthropic" ∨ provider = "claude" then
      Except.ok (Provider.anthropic key (orFalsy model "claude-sonnet-4-5-20250929"))
    else if provider = "openai" ∨ provider = "gpt" then
      Except.ok (Provider.openai key (orFalsy model "gpt-4-turbo-preview"))
    else if provider = "google" ∨ provider = "gemini" then
      if ¬ optTruthy options.projectId then
        Except.error "Google provider requires projectId option"
      else
        Except.ok (Provider.google key (orFalsy model "gemini-1.5-pro")
          (options.projectId.getD "") (orFalsy options.location "us-central1"))
    else
      Except.error ("Unknown provider: " ++ providerName
        ++ ". Supported: anthropic, openai, google")

/-! ### `filterFiles` (review.js lines 351-419)

Each JS regex in `excludePatterns` / `sensitivePatterns` is translated to
the equivalent test on the path string (`$`-anchored patterns to
`strEnds`, `^`-anchored ones to `strStarts`, bare patterns to
`strContains`, `/i` patterns to a lower-cased containment check,
`migrations?\/` and `api[-_]?key` expanded into their finite
alternatives).  A file is kept when it matches no sensitive pattern and no
exclude pattern; the sensitive list collected for the warning is
diagnostic output only. -/

/-- Does the path match one of the generic `excludePatterns`? -/
def matchesExclude (f : String) : Bool :=
  strEnds f ".lock" ||
  strEnds f "package-lock.json" ||
  strEnds f "yarn.lock" ||
  strEnds f "Gemfile.lock" ||
  strEnds f "poetry.lock" ||
  strEnds f "go.sum" ||
  strEnds f ".min.js" || strEnds f ".min.css" ||
  strContains f "dist/" ||
  strContains f "build/" ||
  strContains f "target/" ||
  strContains f "node_modules/" ||
  strContains f "vendor/" ||
  strContains f ".generated." ||
  strEnds f "_pb2.py" ||
  strEnds f "_pb2_grpc.py" ||
  strEnds f ".pb.go" ||
  strEnds f ".png" || strEnds f ".jpg" || strEnds f ".jpeg" || strEnds f ".gif" ||
  strEnds f ".svg" || strEnds f ".ico" || strEnds f ".pdf" || strEnds f ".woff" ||
  strEnds f ".woff2" || strEnds f ".ttf" || strEnds f ".eot" ||
  strContains f "__snapshots__/" ||
  strEnds f ".snap" ||
  strContains f "migration/" || strContains f "migrations/" ||
  strStarts f ".github/workflows/"

/-- Does the path match one of the `sensitivePatterns`? -/
def matchesSensitive (f : String) : Bool :=
  strEnds f ".env" ||
  strContains f ".env." ||
  strContains (strLower f) "credentials" ||
  strContains (strLower f) "secrets" ||
  strEnds f ".pem" ||
  strEnds f ".key" ||
  strEnds f ".p12" ||
  strEnds f ".pfx" ||
  strContains f "id_rsa" ||
  strContains f "id_dsa" ||
  strContains f "id_ecdsa" ||
  strContains f "id_ed25519" ||
  strEnds f ".ppk" ||
  strEnds f ".keystore" ||
  strEnds f ".jks" ||
  strContains (strLower f) "token" ||
  strContains (strLower f) "password" ||
  strContains (strLower f) "api-key" || strContains (strLower f) "api_key"
    || strContains (strLower f) "apikey"

/-- `filterFiles(files)`: sensitive files are dropped first (and reported
separately as a warning, a diagnostic we do not model), then generic
excludes. -/
def filterFiles (files : List String) : List String :=
  files.filter (fun f => !(matchesSensitive f) && !(matchesExclude f))

/-! ### The orchestrator `main` (review.js lines 62-191)

`main` is one big `try`/`catch`.  The collaborator effects (configuration
validation, `process.chdir`, `git diff`, guideline reading, the provider
API call, GitHub posting) are modelled as pre-recorded outcomes in a
`MainWorld`; the control flow, the short-circuits and every `setOutputs`
call are translated from the source.  `setOutputs` appends exactly the
key/value pairs of the object it is given (review.js lines 1299-1309), so
the structured output record is modelled as that ordered pair list. -/

/-- The configuration fields of `CONFIG` that the modelled control flow
reads. -/
structure MainConfig where
  provider : String
  apiKey : Option String
  model : Option String
  severityThreshold : String
  dryRun : Bool
  failOnErrors : Bool
  googleProjectId : Option String
  googleLocation : Option String

/-- The provider response `{ text, usage, model }`. -/
structure LLMResponse where
  text : String
  usage : Usage
  model : String

/-- Recorded outcomes of the orchestrator's effectful collaborators, in
program order.  An `Except.error`/`some` entry is the exception the
corresponding call would throw. -/
structure MainWorld where
  validateErr : Option String
  chdirErr : Option String
  prChanges : Except String (String × List String)
  guidelines : Except String String
  llmResult : Except String LLMResponse
  postCommentsErr : Option String
  postSummaryErr : Option String

/-- What one run of `main` did: the `setOutputs` record written at
termination, whether a provider was constructed, whether the LLM API was
invoked, and whether control reached the `catch` block. -/
structure MainResult where
  outputs : List (String × String)
  providerConstructed : Bool
  llmInvoked : Bool
  failed : Bool

/-- The `catch` block: `setOutputs({ completed: false })` after the
best-effort error comment (review.js lines 167-190). -/
def errorResult (pc li : Bool) : MainResult :=
  ⟨[("completed", "false")], pc, li, true⟩

/-- `cost.toFixed(4)` for the non-negative costs produced here: round half
up to four decimal places (float ties differ only beyond any value the
claims inspect). -/
def toFixed4 (q : ℚ) : String :=
  let units : Int := ((q * 10000 + 1 / 2 : ℚ)).floor
  let u := units.toNat
  let frac := u % 10000
  let pad :=
    if frac < 10 then "000"
    else if frac < 100 then "00"
    else if frac < 1000 then "0"
    else ""
  toString (u / 10000) ++ "." ++ pad ++ toString frac

/-- `main(world)` (review.js lines 62-191): validate, chdir, fetch, filter
(short-circuiting to the no-files record), provider construction, LLM
call, parse, severity filter, counts, cost, then the dry-run or posting
branch; every failure lands in the `catch` of `errorResult`. -/
def mainRun (cfg : MainConfig) (w : MainWorld) : MainResult :=
  match w.validateErr with
  | some _ => errorResult false false
  | none =>
  match w.chdirErr with
  | some _ => errorResult false false
  | none =>
  match w.prChanges with
  | Except.error _ => errorResult false false
  | Except.ok (_diff, changedFiles) =>
    let reviewableFiles := filterFiles changedFiles
    if reviewableFiles.length = 0 then
      ⟨[("completed", "true"), ("findings_count", "0"),
        ("critical_count", "0"), ("high_count", "0")], false, false, false⟩
    else
      match w.guidelines with
      | Except.error _ => errorResult false false
      | Except.ok _g =>
        match ProviderFactory.createProvider cfg.provider cfg.apiKey cfg.model
            ⟨cfg.googleProjectId, cfg.googleLocation⟩ with
        | Except.error _ => errorResult false false
        | Except.ok _prov =>
          match w.llmResult with
          | Except.error _ => errorResult true true
          | Except.ok resp =>
            let allFindings := parseFindings resp.text
            let findings := filterBySeverity cfg.severityThreshold allFindings
            let counts := countBySeverity findings
            let costEstimate := calculateCost resp.usage resp.model
            let successOutputs :=
              [("completed", "true"),
               ("findings_count", toString findings.length),
               ("critical_count", toString counts.CRITICAL),
               ("high_count", toString counts.HIGH),
               ("cost_estimate", toFixed4 costEstimate)]
            if cfg.dryRun then
              ⟨successOutputs, true, true, false⟩
            else
              match (if 0 < findings.length then w.postCommentsErr else none) with
              | some _ => errorResult true true
              | none =>
                match w.postSummaryErr with
                | some _ => errorResult true true
                | none => ⟨successOutputs, true, true, false⟩

/-! ### Helper lemmas -/

/-- `sevLevel` only answers on the four canonical severity words. -/
theorem sevLevel_mem_of_isSome {s : String} (h : ¬ sevLevel s = none) :
    s ∈ ["CRITICAL", "HIGH", "MEDIUM", "LOW"] := by
  unfold sevLevel at h
  split_ifs at h with h1 h2 h3 h4 <;> simp_all

/-- `severityIs f s = true` pins the severity field and the rank. -/
theorem findingRank_of_severityIs {f : JVal} {s : String}
    (h : severityIs f s = true) :
    getField f "severity" = some (JVal.str s) ∧ findingRank f = (sevLevel s).getD 0 := by
  unfold severityIs at h
  unfold findingRank
  rcases hg : getField f "severity" with _ | v
  · rw [hg] at h; simp at h
  · rw [hg] at h
    cases v <;> simp_all

/-! ### Claims -/

/-- Claim C1, amended: on a total pricing miss (no exact table match, no
family-inference substring match) each adapter's `getModelPricing` returns
a fixed default entry without raising — but the default is the Claude
Sonnet 4.5 entry for the Anthropic adapter (not the Opus flagship tier)
and the GPT-4 Turbo entry for the OpenAI adapter (not the most expensive
GPT-4 entry); only the Gemini adapter falls back to its most expensive
entry, Gemini 1.5 Pro.  The `:`-suffix normalization exists only in the
Anthropic adapter (and in review.js's combined table). -/
theorem C1_pricing_fallback (m : String) :
    (tableLookup anthropicPricingTable (headBeforeColon m) = none →
      strContains (headBeforeColon m) "opus" = false →
      strContains (headBeforeColon m) "haiku" = false →
      strContains (headBeforeColon m) "sonnet" = false →
      AnthropicProvider.getModelPricing m = ⟨3, 15, 6, 0.3⟩) ∧
    (tableLookup openaiPricingTable m = none →
      strContains m "gpt-4-turbo" = false →
      strContains m "gpt-4" = false →
      strContains m "gpt-3.5" = false →
      OpenAIProvider.getModelPricing m = ⟨10, 30⟩) ∧
    (tableLookup googlePricingTable m = none →
      strContains m "flash" = false →
      strContains m "1.5-pro" = false →
      strContains m "pro" = false →
      GoogleProvider.getModelPricing m = ⟨3.5, 10.5⟩) := by
  refine ⟨fun h1 h2 h3 h4 => ?_, fun h1 h2 h3 h4 => ?_, fun h1 h2 h3 h4 => ?_⟩ <;>
    simp [AnthropicProvider.getModelPricing, OpenAIProvider.getModelPricing,
      GoogleProvider.getModelPricing, h1, h2, h3, h4]

/-- Claim C1, refuting the claim as stated: for the unseen model name
`"mystery-model"` the Anthropic-style adapter returns Sonnet 4.5 pricing,
which is not the Opus-tier entry the claim names, and the OpenAI-style
adapter returns the GPT-4 Turbo entry, which is not the provider's most
expensive entry (that is `gpt-4` at 30/60). -/
theorem C1_pricing_fallback_counterexample :
    AnthropicProvider.getModelPricing "mystery-model" = ⟨3, 15, 6, 0.3⟩ ∧
    ¬ AnthropicProvider.getModelPricing "mystery-model" = ⟨15, 75, 30, 1.5⟩ ∧
    ¬ OpenAIProvider.getModelPricing "mystery-model" = ⟨30, 60⟩ := by
  refine ⟨rfl, fun h => ?_, fun h => ?_⟩
  · rw [show AnthropicProvider.getModelPricing "mystery-model"
        = (⟨3, 15, 6, 0.3⟩ : CachePricing) from rfl] at h
    have h2 := congrArg CachePricing.input h
    norm_num at h2
  · rw [show OpenAIProvider.getModelPricing "mystery-model"
        = (⟨10, 30⟩ : SimplePricing) from rfl] at h
    have h2 := congrArg SimplePricing.input h
    norm_num at h2

/-- Witness for `C1_pricing_fallback` at the concrete unseen name
`"mystery-model"`. -/
theorem C1_pricing_fallback_witness :
    AnthropicProvider.getModelPricing "mystery-model" = ⟨3, 15, 6, 0.3⟩ ∧
    OpenAIProvider.getModelPricing "mystery-model" = ⟨10, 30⟩ ∧
    GoogleProvider.getModelPricing "mystery-model" = ⟨3.5, 10.5⟩ :=
  ⟨(C1_pricing_fallback "mystery-model").1 rfl rfl rfl rfl,
   (C1_pricing_fallback "mystery-model").2.1 rfl rfl rfl rfl,
   (C1_pricing_fallback "mystery-model").2.2 rfl rfl rfl rfl⟩

/-- Claim C6, confirmed: `calculateCost` is
`input_tokens * input_rate + output_tokens * output_rate` plus the cache
terms exactly when the pricing entry defines those rates, absent usage
fields contributing zero; the two concrete Sonnet-pricing scenarios give
`0.01173` (with cache fields) and `0.0105` (without), both for the
orchestrator's `calculateCost` and for `AnthropicProvider.calculateCost`
(exercised on the same numbers by the provider test suite). -/
theorem C6_calculate_cost :
    (∀ (u : Usage) (p : PricingEntry),
      calculateCostWith u p =
        (u.input_tokens.getD 0) * p.input / 1000000
        + (u.output_tokens.getD 0) * p.output / 1000000
        + (match p.cache_write with
           | some r => (u.cache_creation_input_tokens.getD 0) * r / 1000000
           | none => 0)
        + (match p.cache_read with
           | some r => (u.cache_read_input_tokens.getD 0) * r / 1000000
           | none => 0)) ∧
    calculateCost ⟨some 1000, some 500, some 200, some 100⟩
      "claude-sonnet-4-5-20250929" = 0.01173 ∧
    calculateCost ⟨some 1000, some 500, none, none⟩
      "claude-sonnet-4-5-20250929" = 0.0105 ∧
    AnthropicProvider.calculateCost "claude-sonnet-4-5-20250929"
      ⟨some 1000, some 500, some 200, some 100⟩ none = 0.01173 ∧
    AnthropicProvider.calculateCost "claude-sonnet-4-5-20250929"
      ⟨some 1000, some 500, none, none⟩ none = 0.0105 := by
  have cacheTermEq : ∀ t r : ℚ,
      (if ¬ t = 0 ∧ ¬ r = 0 then t * (r / 1000000) else 0) = t * r / 1000000 := by
    intro t r
    split_ifs with h
    · ring
    · rcases not_and_or.mp h with h | h
      · rw [not_not.mp h]; ring
      · rw [not_not.mp h]; ring
  refine ⟨?_, ?_, ?_, ?_, ?_⟩
  · rintro ⟨ui, uo, uc, ur⟩ ⟨pi, po, pw, pr⟩
    cases uc <;> cases ur <;> cases pw <;> cases pr <;>
      simp only [calculateCostWith, Option.getD_some, Option.getD_none, cacheTermEq] <;>
      ring
  · norm_num [calculateCost, calculateCostWith,
      show getModelPricing "claude-sonnet-4-5-20250929"
        = (⟨3, 15, some 6, some 0.3⟩ : PricingEntry) from rfl]
  · norm_num [calculateCost, calculateCostWith,
      show getModelPricing "claude-sonnet-4-5-20250929"
        = (⟨3, 15, some 6, some 0.3⟩ : PricingEntry) from rfl]
  · norm_num [AnthropicProvider.calculateCost,
      show AnthropicProvider.getModelPricing "claude-sonnet-4-5-20250929"
        = (⟨3, 15, 6, 0.3⟩ : CachePricing) from rfl]
  · norm_num [AnthropicProvider.calculateCost,
      show AnthropicProvider.getModelPricing "claude-sonnet-4-5-20250929"
        = (⟨3, 15, 6, 0.3⟩ : CachePricing) from rfl]

/-- Claim C7, confirmed: severity filtering is a strict ordinal cut under
CRITICAL(4) > HIGH(3) > MEDIUM(2) > LOW(1): for every finding list and
every configured threshold, exactly the findings whose rank reaches the
threshold rank are kept; with threshold MEDIUM every CRITICAL and every
HIGH finding passes and no LOW finding does. -/
theorem C7_severity_cut (t : String) (fs : List JVal) (f : JVal)
    (ht : t ∈ ["CRITICAL", "HIGH", "MEDIUM", "LOW"]) :
    (f ∈ filterBySeverity t fs ↔ f ∈ fs ∧ (sevLevel t).getD 0 ≤ findingRank f) ∧
    (f ∈ fs → severityIs f "CRITICAL" = true → f ∈ filterBySeverity "MEDIUM" fs) ∧
    (f ∈ fs → severityIs f "HIGH" = true → f ∈ filterBySeverity "MEDIUM" fs) ∧
    (severityIs f "LOW" = true → f ∉ filterBySeverity "MEDIUM" fs) := by
  have hmem : ∀ (r : Nat) (g : JVal),
      g ∈ filterBySeverity "MEDIUM" fs ↔ g ∈ fs ∧ 2 ≤ findingRank g := by
    intro r g
    show g ∈ fs.filter (fun x => 2 ≤ findingRank x) ↔ _
    simp [List.mem_filter]
  refine ⟨?_, ?_, ?_, ?_⟩
  · fin_cases ht <;>
      · show f ∈ fs.filter _ ↔ _
        simp [List.mem_filter, sevLevel]
  · intro hf hc
    exact (hmem 2 f).mpr ⟨hf, by rw [(findingRank_of_severityIs hc).2]; decide⟩
  · intro hf hc
    exact (hmem 2 f).mpr ⟨hf, by rw [(findingRank_of_severityIs hc).2]; decide⟩
  · intro hc hmem2
    have h2 := ((hmem 2 f).mp hmem2).2
    rw [(findingRank_of_severityIs hc).2] at h2
    exact absurd h2 (by decide)

/-- Witness for `C7_severity_cut`: with threshold MEDIUM a concrete
CRITICAL finding is kept and a concrete LOW finding is not. -/
theorem C7_severity_cut_witness :
    (JVal.obj [("severity", JVal.str "CRITICAL")]
      ∈ filterBySeverity "MEDIUM"
        [JVal.obj [("severity", JVal.str "CRITICAL")],
         JVal.obj [("severity", JVal.str "LOW")]]) ∧
    (JVal.obj [("severity", JVal.str "LOW")]
      ∉ filterBySeverity "MEDIUM"
        [JVal.obj [("severity", JVal.str "CRITICAL")],
         JVal.obj [("severity", JVal.str "LOW")]]) :=
  ⟨(C7_severity_cut "MEDIUM" _ _ (by simp)).2.1 (List.mem_cons_self _ _) rfl,
   (C7_severity_cut "MEDIUM" _ _ (by simp)).2.2.2 rfl⟩

/-- Claim C10, confirmed: parsing keeps a finding whose severity is any
truthy value (in particular any non-empty string), but for every valid
configured threshold the severity filter only ever keeps findings whose
severity is one of the four enum words — an unrecognized severity ranks
`0`, strictly below the lowest threshold rank `1` — so every finding that
reaches counting, printing or publishing carries one of the four. -/
theorem C10_severity_invariant (t : String) (fs : List JVal) (f : JVal)
    (ht : t ∈ ["CRITICAL", "HIGH", "MEDIUM", "LOW"]) :
    (f ∈ filterBySeverity t fs →
      ∃ s, getField f "severity" = some (JVal.str s)
        ∧ s ∈ ["CRITICAL", "HIGH", "MEDIUM", "LOW"]) ∧
    (∀ (sev fileName title : String) (line : JNum),
      ¬ sev = "" → ¬ fileName = "" → ¬ title = "" → ¬ line.mantissa = 0 →
      validFinding (JVal.obj [("severity", JVal.str sev), ("file", JVal.str fileName),
        ("line", JVal.num line), ("title", JVal.str title)]) = true) := by
  constructor
  · intro hf
    have hthr : 1 ≤ (sevLevel t).getD 0 := by fin_cases ht <;> simp [sevLevel]
    have hrank : (sevLevel t).getD 0 ≤ findingRank f := by
      have : f ∈ fs ∧ (sevLevel t).getD 0 ≤ findingRank f := by
        rcases hs : sevLevel t with _ | r
        · fin_cases ht <;> simp_all [sevLevel]
        · rw [filterBySeverity, hs] at hf
          have := List.mem_filter.mp hf
          simpa [hs] using this
      exact this.2
    have hpos : 1 ≤ findingRank f := le_trans hthr hrank
    unfold findingRank at hpos
    rcases hg : getField f "severity" with _ | v
    · rw [hg] at hpos
      change (1 : Nat) ≤ 0 at hpos
      omega
    · rw [hg] at hpos
      cases v with
      | str s =>
        refine ⟨s, rfl, ?_⟩
        apply sevLevel_mem_of_isSome
        intro hnone
        change 1 ≤ (sevLevel s).getD 0 at hpos
        rw [hnone] at hpos
        change (1 : Nat) ≤ 0 at hpos
        omega
      | null => change (1 : Nat) ≤ 0 at hpos; omega
      | bool b => change (1 : Nat) ≤ 0 at hpos; omega
      | num q => change (1 : Nat) ≤ 0 at hpos; omega
      | arr xs => change (1 : Nat) ≤ 0 at hpos; omega
      | obj ms => change (1 : Nat) ≤ 0 at hpos; omega
  · intro sev fileName title line h1 h2 h3 h4
    show (truthy (some (JVal.str sev)) && truthy (some (JVal.str fileName))
      && truthy (some (JVal.num line)) && truthy (some (JVal.str title))) = true
    simp [truthy, h1, h2, h3, h4]

/-- Witness for `C10_severity_invariant`: a kept MEDIUM-threshold finding
has an enum severity, and a finding with the non-enum severity
`"BANANA"` (a non-empty string) still survives parsing validation. -/
theorem C10_severity_invariant_witness :
    (∃ s, getField (JVal.obj [("severity", JVal.str "HIGH")]) "severity"
        = some (JVal.str s) ∧ s ∈ ["CRITICAL", "HIGH", "MEDIUM", "LOW"]) ∧
    validFinding (JVal.obj [("severity", JVal.str "BANANA"), ("file", JVal.str "a.js"),
      ("line", JVal.num ⟨3, 0⟩), ("title", JVal.str "x")]) = true :=
  ⟨(C10_severity_invariant "MEDIUM" [JVal.obj [("severity", JVal.str "HIGH")]]
      (JVal.obj [("severity", JVal.str "HIGH")]) (by simp)).1
      (by exact List.mem_cons_self _ _),
   (C10_severity_invariant "MEDIUM" [] (JVal.obj []) (by simp)).2
      "BANANA" "a.js" "x" ⟨3, 0⟩ (by simp) (by simp) (by simp) (by simp)⟩

/-- Claim C8, confirmed: `createProvider` rejects an empty or absent
`apiKey` with the credential error before and independently of provider
matching; the name is matched case-insensitively with the aliases
`claude`, `gpt` and `gemini`; an unrecognized name fails with
`Unknown provider: <name>` listing the supported set; `google`/`gemini`
without a truthy `projectId` fails with the distinct
`requires projectId` error.  The two concrete spec scenarios are included.
-/
theorem C8_factory_contract (name : String) (key : Option String)
    (model : Option String) (opts : FactoryOptions) :
    (optTruthy key = false →
      ProviderFactory.createProvider name key model opts
        = Except.error ("API key is required for provider: " ++ name)) ∧
    (optTruthy key = true →
      ¬ strLower name ∈ ["anthropic", "claude", "openai", "gpt", "google", "gemini"] →
      ProviderFactory.createProvider name key model opts
        = Except.error ("Unknown provider: " ++ name
            ++ ". Supported: anthropic, openai, google")) ∧
    (optTruthy key = true →
      (strLower name = "google" ∨ strLower name = "gemini") →
      optTruthy opts.projectId = false →
      ProviderFactory.createProvider name key model opts
        = Except.error "Google provider requires projectId option") ∧
    (optTruthy key = true →
      (strLower name = "anthropic" ∨ strLower name = "claude") →
      ProviderFactory.createProvider name key model opts
        = Except.ok (Provider.anthropic (key.getD "")
            (orFalsy model "claude-sonnet-4-5-20250929"))) ∧
    (ProviderFactory.createProvider "unknown" (some "test-key-123") none ⟨none, none⟩
      = Except.error "Unknown provider: unknown. Supported: anthropic, openai, google") ∧
    (strContains "Unknown provider: unknown. Supported: anthropic, openai, google"
      "Unknown provider: unknown" = true) ∧
    (ProviderFactory.createProvider "google" (some "test-key-123") none ⟨none, none⟩
      = Except.error "Google provider requires projectId option") ∧
    (strContains "Google provider requires projectId option" "requires projectId" = true) := by
  refine ⟨?_, ?_, ?_, ?_, rfl, by decide, rfl, by decide⟩
  · intro hk
    simp [ProviderFactory.createProvider, hk]
  · intro hk hn
    simp only [List.mem_cons, List.mem_singleton, not_or] at hn
    obtain ⟨n1, n2, n3, n4, n5, n6⟩ := hn
    simp [ProviderFactory.createProvider, hk, n1, n2, n3, n4, n5, n6]
  · intro hk hg hp
    rcases hg with hg | hg <;>
      simp [ProviderFactory.createProvider, hk, hg, hp]
  · intro hk ha
    rcases ha with ha | ha <;>
      simp [ProviderFactory.createProvider, hk, ha]

/-- Witness for `C8_factory_contract`: each guarded conjunct applied at a
concrete input. -/
theorem C8_factory_contract_witness :
    (ProviderFactory.createProvider "anthropic" none none ⟨none, none⟩
      = Except.error "API key is required for provider: anthropic") ∧
    (ProviderFactory.createProvider "Whatever" (some "test-key-123") none ⟨none, none⟩
      = Except.error "Unknown provider: Whatever. Supported: anthropic, openai, google") ∧
    (ProviderFactory.createProvider "Gemini" (some "test-key-123") none ⟨some "", none⟩
      = Except.error "Google provider requires projectId option") ∧
    (ProviderFactory.createProvider "CLAUDE" (some "test-key-123") (some "") ⟨none, none⟩
      = Except.ok (Provider.anthropic "test-key-123" "claude-sonnet-4-5-20250929")) :=
  ⟨(C8_factory_contract "anthropic" none none ⟨none, none⟩).1 rfl,
   (C8_factory_contract "Whatever" (some "test-key-123") none ⟨none, none⟩).2.1 rfl
     (by decide),
   (C8_factory_contract "Gemini" (some "test-key-123") none ⟨some "", none⟩).2.2.1 rfl
     (Or.inr (by decide)) rfl,
   (C8_factory_contract "CLAUDE" (some "test-key-123") (some "") ⟨none, none⟩).2.2.2.1 rfl
     (Or.inr (by decide))⟩

/-- Claim C9, confirmed: whenever the reviewable subset of the changed
files is empty, `main` short-circuits to the no-files terminal outcome
before the provider factory or the LLM call: no provider is constructed or
invoked and the structured output reports `completed=true` with
`findings_count` 0. -/
theorem C9_no_files_short_circuit (cfg : MainConfig) (w : MainWorld)
    (d : String) (files : List String)
    (h1 : w.validateErr = none) (h2 : w.chdirErr = none)
    (h3 : w.prChanges = Except.ok (d, files))
    (h4 : filterFiles files = []) :
    mainRun cfg w =
      ⟨[("completed", "true"), ("findings_count", "0"),
        ("critical_count", "0"), ("high_count", "0")], false, false, false⟩ := by
  unfold mainRun
  rw [h1, h2, h3]
  simp [h4]

/-- Witness for `C9_no_files_short_circuit` on a change set consisting of
a lockfile and a dotenv file, both filtered out. -/
theorem C9_no_files_short_circuit_witness :
    mainRun ⟨"anthropic", some "test-key-123", none, "LOW", false, false, none, none⟩
      ⟨none, none, Except.ok ("d", ["package-lock.json", ".env"]), Except.ok "",
       Except.error "never called", none, none⟩
    = ⟨[("completed", "true"), ("findings_count", "0"),
        ("critical_count", "0"), ("high_count", "0")], false, false, false⟩ :=
  C9_no_files_short_circuit _ _ "d" ["package-lock.json", ".env"] rfl rfl rfl rfl

/-- Claim C2, amended: the structured output record depends on the
terminal state.  A successful run — one that completed the review, i.e.
did invoke the LLM, whether dry-run or posted — writes all five fields
(`completed`, `findings_count`, `critical_count`, `high_count`,
`cost_estimate`); a non-failed run that never invoked the LLM is exactly
the no-reviewable-files outcome and writes only the first four fields
with their zero values (no `cost_estimate`); and every failing run writes
only `completed=false`, without the counts or the cost estimate. -/
theorem C2_outputs_record (cfg : MainConfig) (w : MainWorld) :
    ((mainRun cfg w).failed = true →
      (mainRun cfg w).outputs = [("completed", "false")]) ∧
    ((mainRun cfg w).failed = false → (mainRun cfg w).llmInvoked = true →
      (mainRun cfg w).outputs.map Prod.fst
        = ["completed", "findings_count", "critical_count", "high_count", "cost_estimate"]) ∧
    ((mainRun cfg w).failed = false → (mainRun cfg w).llmInvoked = false →
      (mainRun cfg w).outputs
        = [("completed", "true"), ("findings_count", "0"),
           ("critical_count", "0"), ("high_count", "0")]) := by
  unfold mainRun errorResult
  repeat' split
  all_goals try simp
  all_goals try (split_ifs <;> try simp)
  all_goals try (repeat' split)
  all_goals try simp

/-- Claim C2, refuting the claim as stated: a run failing at validation
writes a record that does not contain the findings count (nor the severity
counts or cost estimate) — only `completed=false` — and even the no-files
success record carries no `cost_estimate` key. -/
theorem C2_outputs_record_counterexample :
    ((mainRun ⟨"anthropic", some "test-key-123", none, "LOW", false, false, none, none⟩
        ⟨some "Missing required configuration: githubToken", none,
         Except.error "unreached", Except.error "unreached",
         Except.error "unreached", none, none⟩).outputs
      = [("completed", "false")]) ∧
    ¬ "findings_count" ∈ ((mainRun ⟨"anthropic", some "test-key-123", none, "LOW",
          false, false, none, none⟩
        ⟨some "Missing required configuration: githubToken", none,
         Except.error "unreached", Except.error "unreached",
         Except.error "unreached", none, none⟩).outputs.map Prod.fst) ∧
    ¬ "cost_estimate" ∈ ((mainRun ⟨"anthropic", some "test-key-123", none, "LOW",
          false, false, none, none⟩
        ⟨none, none, Except.ok ("d", [".env"]), Except.ok "",
         Except.error "unreached", none, none⟩).outputs.map Prod.fst) := by
  refine ⟨rfl, by decide, by decide⟩

/-- Witness for `C2_outputs_record`: the failing-path conjunct at a
concrete failing world, the success-path conjunct at a concrete dry-run
success world (whose record carries `cost_estimate`), and the no-files
conjunct at a concrete all-filtered world. -/
theorem C2_outputs_record_witness :
    ((mainRun ⟨"anthropic", some "test-key-123", none, "LOW", true, false, none, none⟩
        ⟨some "Invalid PR number", none, Except.error "unreached",
         Except.error "unreached", Except.error "unreached", none, none⟩).outputs
      = [("completed", "false")]) ∧
    ((mainRun ⟨"anthropic", some "test-key-123", none, "LOW", true, false, none, none⟩
        ⟨none, none, Except.ok ("d", ["src/app.js"]), Except.ok "",
         Except.ok ⟨"[]", ⟨some 1000, some 500, none, none⟩,
           "claude-sonnet-4-5-20250929"⟩, none, none⟩).outputs.map Prod.fst
        = ["completed", "findings_count", "critical_count", "high_count", "cost_estimate"]) ∧
    ((mainRun ⟨"anthropic", some "test-key-123", none, "LOW", true, false, none, none⟩
        ⟨none, none, Except.ok ("d", ["package-lock.json"]), Except.ok "",
         Except.error "unreached", none, none⟩).outputs
      = [("completed", "true"), ("findings_count", "0"),
         ("critical_count", "0"), ("high_count", "0")]) :=
  ⟨(C2_outputs_record _ _).1 rfl, (C2_outputs_record _ _).2.1 rfl rfl,
   (C2_outputs_record _ _).2.2 rfl rfl⟩

/-- The retry loop under the all-attempts-fail assumption: starting at any
`attempt` with `rem = retries + 1 - attempt` iterations left, it makes
`rem` attempts, sleeps `2^a * 1000` ms after each non-final attempt `a`,
and throws the labelled error built from the final attempt's message. -/
theorem reviewLoop_allFail {α : Type} (label : String) (f : Nat → String)
    (retries : Nat) :
    ∀ (rem attempt : Nat), 1 ≤ rem → attempt + rem = retries + 1 →
      reviewLoop (α := α) label (fun n => Except.error (f n)) retries rem attempt =
        ⟨rem, (List.range' attempt (rem - 1)).map (fun a => 2 ^ a * 1000),
         LoopOutcome.thrown (apiFailMsg label retries (f retries))⟩ := by
  intro rem
  induction rem with
  | zero => omega
  | succ k ih =>
    intro attempt _ hsum
    by_cases hk : k = 0
    · subst hk
      have ha : attempt = retries := by omega
      subst ha
      simp [reviewLoop]
    · have hne : ¬ attempt = retries := by omega
      have hrec := ih (attempt + 1) (by omega) (by omega)
      obtain ⟨j, rfl⟩ : ∃ j, k = j + 1 := ⟨k - 1, by omega⟩
      change (if attempt = retries then
            (⟨1, [], LoopOutcome.thrown (apiFailMsg label retries (f attempt))⟩ : RetryRun α)
          else
            let r := reviewLoop (α := α) label (fun n => Except.error (f n))
              retries (j + 1) (attempt + 1)
            ⟨r.attempts + 1, 2 ^ attempt * 1000 :: r.delaysMs, r.outcome⟩) = _
      rw [if_neg hne]
      simp only [hrec]
      rfl

/-- Claim C3, amended: for every adapter label and `retries ≥ 1`, when all
underlying attempts fail, `review` makes exactly `retries` attempts, sleeps
`2^attempt` seconds (`2^attempt * 1000` ms) after each failed non-final
attempt `attempt = 1, …, retries-1`, and rejects with
`<label> API failed after <retries> attempts: <final error message>`.
For `retries = 0`, however, the `for` loop body never runs: the call makes
no attempt and resolves with `undefined` instead of rejecting with the
provider-named error. -/
theorem C3_retry_policy {α : Type} (label : String) (f : Nat → String)
    (retries : Nat) (h : 1 ≤ retries) :
    reviewRetry (α := α) label (fun n => Except.error (f n)) retries =
      ⟨retries, (List.range' 1 (retries - 1)).map (fun a => 2 ^ a * 1000),
       LoopOutcome.thrown (label ++ " API failed after " ++ toString retries
         ++ " attempts: " ++ f retries)⟩ :=
  reviewLoop_allFail label f retries retries 1 h (by omega)

/-- Claim C3, refuting the claim as stated at `retries = 0`: the call
terminates with no attempt made and no error thrown (the JS function
returns `undefined`), not with the provider-named error. -/
theorem C3_retry_policy_counterexample :
    reviewRetry (α := Unit) "Anthropic" (fun _ => Except.error "boom") 0
      = ⟨0, [], LoopOutcome.fellThrough⟩ ∧
    ¬ (reviewRetry (α := Unit) "Anthropic" (fun _ => Except.error "boom") 0).outcome
      = LoopOutcome.thrown "Anthropic API failed after 0 attempts: boom" :=
  ⟨rfl, by decide⟩

/-- Witness for `C3_retry_policy` at `retries = 3`: three attempts, sleeps
of 2 and 4 seconds, and the labelled error embedding the third attempt's
message. -/
theorem C3_retry_policy_witness :
    reviewRetry (α := Unit) "Anthropic" (fun n => Except.error ("e" ++ toString n)) 3
      = ⟨3, [2000, 4000], LoopOutcome.thrown "Anthropic API failed after 3 attempts: e3"⟩ :=
  C3_retry_policy "Anthropic" (fun n => "e" ++ toString n) 3 (by omega)

/-- Claim C5, amended: `parseFindings` extracts the greedy regex match of
`/\[[\s\S]*\]/` — the substring from the first `[` (that has a later `]`)
through the *last* `]` of the whole text, which need not be the first
well-formed array-shaped JSON substring; when no such substring exists, or
the extracted substring does not parse to a JSON array, the result is the
empty finding list and no error escapes.  The concrete scenario body
parses to exactly one valid finding. -/
theorem C5_extraction (t : String) :
    (extractArraySub t.data = none → parseFindings t = []) ∧
    (∀ sub, extractArraySub t.data = some sub →
      (∀ xs, ¬ jsonParseChars sub = some (JVal.arr xs)) → parseFindings t = []) ∧
    parseFindings ("Here is the review:\n[\x7b\"severity\":\"HIGH\",\"file\":\"a.js\",\"line\":3,\"title\":\"x\",\"description\":\"y\"\x7d]\nDone.")
      = [JVal.obj [("severity", JVal.str "HIGH"), ("file", JVal.str "a.js"),
          ("line", JVal.num ⟨3, 0⟩), ("title", JVal.str "x"),
          ("description", JVal.str "y")]] := by
  refine ⟨?_, ?_, rfl⟩
  · intro h
    unfold parseFindings
    rw [h]
  · intro sub hx hnone
    unfold parseFindings
    rw [hx]
    show (match jsonParseChars sub with
      | some (JVal.arr findings) => findings.filter validFinding
      | _ => []) = _
    rcases hj : jsonParseChars sub with _ | v
    · rfl
    · cases v with
      | arr xs => exact absurd hj (hnone xs)
      | null => rfl
      | bool b => rfl
      | num q => rfl
      | str s => rfl
      | obj ms => rfl

/-- Claim C5, refuting the claim as stated: in a response whose first
well-formed array-shaped JSON substring is a one-finding array but which
contains a later `]`, the greedy extraction hands `JSON.parse` an invalid
substring, so `parseFindings` returns `[]` instead of that finding. -/
theorem C5_extraction_counterexample :
    jsonParse "[\x7b\"severity\":\"HIGH\",\"file\":\"a.js\",\"line\":3,\"title\":\"x\"\x7d]"
      = some (JVal.arr [JVal.obj [("severity", JVal.str "HIGH"), ("file", JVal.str "a.js"),
          ("line", JVal.num ⟨3, 0⟩), ("title", JVal.str "x")]]) ∧
    validFinding (JVal.obj [("severity", JVal.str "HIGH"), ("file", JVal.str "a.js"),
      ("line", JVal.num ⟨3, 0⟩), ("title", JVal.str "x")]) = true ∧
    parseFindings "[\x7b\"severity\":\"HIGH\",\"file\":\"a.js\",\"line\":3,\"title\":\"x\"\x7d] See also [1]"
      = [] ∧
    ¬ parseFindings "[\x7b\"severity\":\"HIGH\",\"file\":\"a.js\",\"line\":3,\"title\":\"x\"\x7d] See also [1]"
      = [JVal.obj [("severity", JVal.str "HIGH"), ("file", JVal.str "a.js"),
          ("line", JVal.num ⟨3, 0⟩), ("title", JVal.str "x")]] := by
  refine ⟨rfl, rfl, rfl, ?_⟩
  intro h
  rw [show parseFindings "[\x7b\"severity\":\"HIGH\",\"file\":\"a.js\",\"line\":3,\"title\":\"x\"\x7d] See also [1]"
      = [] from rfl] at h
  exact List.noConfusion h

/-- Witness for `C5_extraction`: a text with no array-shaped substring and
a text whose extracted substring is not valid JSON both yield the empty
finding list. -/
theorem C5_extraction_witness :
    parseFindings "no structured findings at all" = [] ∧
    parseFindings "prose [not, json] more prose" = [] := by
  constructor
  · exact (C5_extraction "no structured findings at all").1 rfl
  · refine (C5_extraction "prose [not, json] more prose").2.1
      ("[not, json]").data rfl ?_
    intro xs h
    rw [show jsonParseChars ("[not, json]").data = none from rfl] at h
    exact Option.noConfusion h
